import Mathlib

/-!
Verification of the Bubblemaps Telegram bot (`bot.py`).

This file gives a shallow embedding of the bot's pure logic:

* the decentralization classifier `analyze_decentralization` (bot.py 167-178);
* the holder-data fetcher `get_token_data` (bot.py 72-104), with the HTTP
  layer abstracted as an input value;
* the market-data fetcher `get_market_data` (bot.py 106-147);
* the message-composition and dispatch logic of `handle_contract`
  (bot.py 180-255), with the outcomes of the three concurrently gathered
  fetches supplied as an environment record, and the observable effects
  (replies sent, photo delivery, temporary-file deletion) collected in a
  trace.

Python floats are modelled as rationals (`ℚ`); JSON dictionaries as
structures with `Option` fields for the keys the code accesses optionally.
-/

/-- A holder record (an element of the `nodes` list in the map-data JSON).
The code reads `node['address']` directly (bot.py 234) and
`node.get('percentage', 0)` with a default (bot.py 172, 235), so `address`
is modelled as present and `percentage` as optional. -/
structure Node where
  address : String
  percentage : Option ℚ
deriving DecidableEq

/-- `node.get('percentage', 0)` (bot.py 172): a missing percentage reads as 0. -/
def nodePercentage (n : Node) : ℚ :=
  n.percentage.getD 0

/-- `sum(node.get('percentage', 0) for node in nodes[:10])` (bot.py 172). -/
def top10Sum (nodes : List Node) : ℚ :=
  ((nodes.take 10).map nodePercentage).sum

/-- The classifier's result dictionary `{'score': ..., 'description': ...}`. -/
structure Verdict where
  score : Nat
  description : String
deriving DecidableEq

/-- `analyze_decentralization` (bot.py 167-178), translated clause by clause:
the `if not nodes or len(nodes) < 3` guard, then strict `>` threshold
comparisons at 90, 70, 50, 30. -/
def analyze_decentralization (nodes : List Node) : Verdict :=
  if nodes = [] ∨ nodes.length < 3 then
    { score := 0, description := "Insufficient data for analysis" }
  else if top10Sum nodes > 90 then
    { score := 1, description := "Very low decentralization" }
  else if top10Sum nodes > 70 then
    { score := 2, description := "Low decentralization" }
  else if top10Sum nodes > 50 then
    { score := 3, description := "Medium decentralization" }
  else if top10Sum nodes > 30 then
    { score := 4, description := "High decentralization" }
  else
    { score := 5, description := "Very high decentralization" }

/-- A list of length at least 3 fails the insufficient-data guard. -/
theorem analyze_guard_false (ns : List Node) (h : 3 ≤ ns.length) :
    ¬ (ns = [] ∨ ns.length < 3) := by
  rintro (rfl | hl)
  · simp at h
  · omega

/-- The classifier respects length and top-10-sum congruence. -/
theorem analyze_congr (l1 l2 : List Node) (hlen : l1.length = l2.length)
    (hsum : top10Sum l1 = top10Sum l2) :
    analyze_decentralization l1 = analyze_decentralization l2 := by
  unfold analyze_decentralization
  simp only [← List.length_eq_zero, hlen, hsum]

/-- Claim C4: for holder lists of length at least 3, a top-10 sum exactly at a
threshold boundary falls into the lower-concentration bucket because the
comparisons are strict: sum 90 gives score 2, 70 gives 3, 50 gives 4, 30
gives 5. -/
theorem claim_C4 (nodes : List Node) (h3 : 3 ≤ nodes.length) :
    (top10Sum nodes = 90 → (analyze_decentralization nodes).score = 2) ∧
    (top10Sum nodes = 70 → (analyze_decentralization nodes).score = 3) ∧
    (top10Sum nodes = 50 → (analyze_decentralization nodes).score = 4) ∧
    (top10Sum nodes = 30 → (analyze_decentralization nodes).score = 5) := by
  have hg := analyze_guard_false nodes h3
  refine ⟨?_, ?_, ?_, ?_⟩ <;> intro hs <;>
    norm_num [analyze_decentralization, hg, hs]

/-- Claim C4 witness: concrete boundary lists (padding with zero percentages so
the sums are literal). -/
theorem claim_C4_witness :
    (analyze_decentralization [⟨"a", some 90⟩, ⟨"b", some 0⟩, ⟨"c", some 0⟩]).score = 2 ∧
    (analyze_decentralization [⟨"a", some 70⟩, ⟨"b", some 0⟩, ⟨"c", some 0⟩]).score = 3 ∧
    (analyze_decentralization [⟨"a", some 50⟩, ⟨"b", some 0⟩, ⟨"c", some 0⟩]).score = 4 ∧
    (analyze_decentralization [⟨"a", some 30⟩, ⟨"b", some 0⟩, ⟨"c", some 0⟩]).score = 5 :=
  ⟨(claim_C4 _ (by decide)).1 (by simp [top10Sum, nodePercentage]),
   (claim_C4 _ (by decide)).2.1 (by simp [top10Sum, nodePercentage]),
   (claim_C4 _ (by decide)).2.2.1 (by simp [top10Sum, nodePercentage]),
   (claim_C4 _ (by decide)).2.2.2 (by simp [top10Sum, nodePercentage])⟩

/-- Claim C5: for lists of length at least 3 the score is non-increasing in the
top-10 sum, and for every list the score lies in `{0,1,2,3,4,5}`. -/
theorem claim_C5 :
    (∀ ns1 ns2 : List Node, 3 ≤ ns1.length → 3 ≤ ns2.length →
      top10Sum ns2 ≤ top10Sum ns1 →
      (analyze_decentralization ns1).score ≤ (analyze_decentralization ns2).score) ∧
    (∀ ns : List Node, (analyze_decentralization ns).score ∈ [0, 1, 2, 3, 4, 5]) := by
  constructor
  · intro ns1 ns2 h1 h2 hle
    have hg1 := analyze_guard_false ns1 h1
    have hg2 := analyze_guard_false ns2 h2
    unfold analyze_decentralization
    rw [if_neg hg1, if_neg hg2]
    split_ifs <;> simp_all <;> linarith
  · intro ns
    unfold analyze_decentralization
    split_ifs <;> simp

/-- Claim C5 witness: a list with sum 90 scores at most what a list with sum 50
scores, and the first list's score is in the allowed set. -/
theorem claim_C5_witness :
    (analyze_decentralization [⟨"a", some 90⟩, ⟨"b", some 0⟩, ⟨"c", some 0⟩]).score ≤
      (analyze_decentralization [⟨"d", some 50⟩, ⟨"e", some 0⟩, ⟨"f", some 0⟩]).score ∧
    (analyze_decentralization [⟨"a", some 90⟩, ⟨"b", some 0⟩, ⟨"c", some 0⟩]).score
      ∈ [0, 1, 2, 3, 4, 5] :=
  ⟨claim_C5.1 _ _ (by decide) (by decide)
      (by simp [top10Sum, nodePercentage]; decide),
   claim_C5.2 _⟩

/-- Claim C6: every holder list with fewer than 3 records gets score 0 with the
fixed insufficient-data description, whatever the records contain. -/
theorem claim_C6 (nodes : List Node) (h : nodes.length < 3) :
    analyze_decentralization nodes =
      { score := 0, description := "Insufficient data for analysis" } := by
  simp [analyze_decentralization, h]

/-- Claim C6 witness: a two-record list with huge percentages still scores 0. -/
theorem claim_C6_witness :
    analyze_decentralization [⟨"a", some 99⟩, ⟨"b", some 1⟩] =
      { score := 0, description := "Insufficient data for analysis" } :=
  claim_C6 _ (by decide)

/-- Claim C10: a record with a missing percentage field contributes 0 to the
top-10 sum exactly as if it carried percentage 0, and the classifier's result
is unchanged by that substitution — the classifier is total over records with
missing percentages. -/
theorem claim_C10 (pre post : List Node) (a : String) :
    nodePercentage ⟨a, none⟩ = 0 ∧
    top10Sum (pre ++ ⟨a, none⟩ :: post) = top10Sum (pre ++ ⟨a, some 0⟩ :: post) ∧
    analyze_decentralization (pre ++ ⟨a, none⟩ :: post) =
      analyze_decentralization (pre ++ ⟨a, some 0⟩ :: post) := by
  have hmap : (pre ++ (⟨a, none⟩ : Node) :: post).map nodePercentage =
      (pre ++ (⟨a, some 0⟩ : Node) :: post).map nodePercentage := by
    simp [nodePercentage]
  have hsum : top10Sum (pre ++ ⟨a, none⟩ :: post) =
      top10Sum (pre ++ ⟨a, some 0⟩ :: post) := by
    unfold top10Sum
    rw [List.map_take, List.map_take, hmap]
  exact ⟨rfl, hsum, analyze_congr _ _ (by simp) hsum⟩

/-! ## Holder-data fetcher (`get_token_data`, bot.py 72-104) -/

/-- The JSON body of a successful map-data response, restricted to the keys
the code reads: `symbol`, `full_name` (both read with `'N/A'` defaults,
bot.py 97-98), `dt_update` (read later with an `'N/A'` default, bot.py 215)
and `nodes` (bot.py 228-230). -/
structure TokenJson where
  symbol : Option String
  full_name : Option String
  dt_update : Option String
  nodes : Option (List Node)
deriving DecidableEq

/-- The dictionary `get_token_data` returns after `data.update({...})`
(bot.py 95-99): address and the defaulted symbol and name are present. -/
structure TokenData where
  token_address : String
  symbol : String
  full_name : String
  dt_update : Option String
  nodes : Option (List Node)
deriving DecidableEq

/-- Outcome of the blocking `requests.get` call to the map-data API:
either an exception (network error, timeout), or a response with a status
code and a body that `response.json()` parses (`some`) or fails on (`none`). -/
inductive TokenHttp where
  | exn
  | resp (status : Nat) (body : Option TokenJson)
deriving DecidableEq

/-- The body of the `try` block in `get_token_data` (bot.py 74-101).
`.error ()` marks an exception escaping the block: the `requests.get` call
raising, `raise_for_status()` (bot.py 92) raising on a 4xx/5xx status, or
`response.json()` (bot.py 94) raising on an unparseable body. -/
def get_token_data_try (contract_address : String) (h : TokenHttp) :
    Except Unit (Option TokenData) :=
  match h with
  | .exn => .error ()
  | .resp status body =>
    if status = 401 then .ok none
    else if status = 404 then .ok none
    else if 400 ≤ status ∧ status < 600 then .error ()
    else
      match body with
      | none => .error ()
      | some d =>
          .ok (some { token_address := contract_address,
                      symbol := d.symbol.getD "N/A",
                      full_name := d.full_name.getD "N/A",
                      dt_update := d.dt_update,
                      nodes := d.nodes })

/-- `get_token_data` (bot.py 72-104): the `except Exception` handler
(bot.py 102-104) converts every exception escaping the `try` block to `None`. -/
def get_token_data (contract_address : String) (h : TokenHttp) :
    Option TokenData :=
  match get_token_data_try contract_address h with
  | .ok r => r
  | .error _ => none

/-- Claim C2 counterexample: an HTTP 500 response with a perfectly parseable
body is converted to absence (`none`), not propagated to the caller as a
failure — the `raise_for_status()` exception is swallowed by the fetcher's
own `except Exception` handler. -/
theorem claim_C2_counterexample :
    get_token_data "0xabc" (.resp 500 (some ⟨some "S", some "N", some "now", some []⟩)) =
      none := rfl

/-- Claim C2 as amended: HTTP 401 and 404 each yield absence directly; every
other non-success (4xx/5xx) status raises inside the `try` block via
`raise_for_status()`, but the fetcher's blanket exception handler converts
that failure to absence as well, so the caller sees `none` for every
non-success status, never a propagated failure. -/
theorem claim_C2_amended_thm (addr : String) (body : Option TokenJson)
    (status : Nat) (h4 : 400 ≤ status) (h6 : status < 600) :
    get_token_data addr (.resp 401 body) = none ∧
    get_token_data addr (.resp 404 body) = none ∧
    (status ≠ 401 → status ≠ 404 →
      get_token_data_try addr (.resp status body) = .error ()) ∧
    get_token_data addr (.resp status body) = none := by
  refine ⟨rfl, rfl, ?_, ?_⟩
  · intro h1 h2
    simp [get_token_data_try, h1, h2, h4, h6]
  · by_cases h1 : status = 401
    · simp [get_token_data, get_token_data_try, h1]
    · by_cases h2 : status = 404
      · simp [get_token_data, get_token_data_try, h1, h2]
      · simp [get_token_data, get_token_data_try, h1, h2, h4, h6]

/-- Claim C2 amended witness: status 500 with a parseable body. -/
theorem claim_C2_amended_witness :
    get_token_data "0xabc" (.resp 401 none) = none ∧
    get_token_data "0xabc" (.resp 404 none) = none ∧
    (get_token_data_try "0xabc" (.resp 500 none) = .error ()) ∧
    get_token_data "0xabc" (.resp 500 none) = none :=
  ⟨(claim_C2_amended_thm "0xabc" none 500 (by decide) (by decide)).1,
   (claim_C2_amended_thm "0xabc" none 500 (by decide) (by decide)).2.1,
   (claim_C2_amended_thm "0xabc" none 500 (by decide) (by decide)).2.2.1
     (by decide) (by decide),
   (claim_C2_amended_thm "0xabc" none 500 (by decide) (by decide)).2.2.2⟩

/-! ## Market-data fetcher (`get_market_data`, bot.py 106-147) -/

/-- One `{'usd': ...}` box in the CoinGecko response; the code reads it with
`.get('usd')`, so the field is optional. -/
structure UsdBox where
  usd : Option ℚ
deriving DecidableEq

/-- The `market_data` object of the CoinGecko response, restricted to the keys
read at bot.py 140-143; every level is read with a defaulting `.get`, so each
is optional. -/
structure MarketInner where
  current_price : Option UsdBox
  market_cap : Option UsdBox
  total_volume : Option UsdBox
  price_change_percentage_24h : Option ℚ
deriving DecidableEq

/-- The top level of the CoinGecko response body. -/
structure GeckoJson where
  market_data : Option MarketInner
deriving DecidableEq

/-- The dictionary `get_market_data` returns on success (bot.py 139-144):
all four keys are always present, each value possibly null. -/
structure MarketData where
  price : Option ℚ
  market_cap : Option ℚ
  volume : Option ℚ
  price_change_24h : Option ℚ
deriving DecidableEq

/-- Outcome of the blocking `requests.get` call to the market-data API. -/
inductive MarketHttp where
  | exn
  | resp (status : Nat) (body : Option GeckoJson)
deriving DecidableEq

/-- The `chain_map` lookup table (bot.py 111-120). -/
def chain_map : List (String × String) :=
  [("eth", "ethereum"), ("bsc", "binance-smart-chain"), ("ftm", "fantom"),
   ("avax", "avalanche"), ("poly", "polygon-pos"), ("arbi", "arbitrum-one"),
   ("base", "base"), ("cro", "cronos")]

/-- `get_market_data` (bot.py 106-147): short-circuits to `None` for `'sol'`
and for chains missing from `chain_map`; any non-200 status, network
exception or parse failure yields `None`; on success the four nested fields
are extracted with defaulting `.get` chains, each independently optional. -/
def get_market_data (chain : String) (h : MarketHttp) : Option MarketData :=
  if chain = "sol" then none
  else if (chain_map.lookup chain).isNone then none
  else
    match h with
    | .exn => none
    | .resp status body =>
      if status ≠ 200 then none
      else
        match body with
        | none => none
        | some d =>
            some { price := (d.market_data.bind (·.current_price)).bind (·.usd),
                   market_cap := (d.market_data.bind (·.market_cap)).bind (·.usd),
                   volume := (d.market_data.bind (·.total_volume)).bind (·.usd),
                   price_change_24h :=
                     d.market_data.bind (·.price_change_percentage_24h) }

/-! ## Input parsing and message text (`handle_contract`, bot.py 180-255) -/

/-- Accumulator-based whitespace splitter: `acc` holds the current token's
characters in reverse. -/
def splitWsAux : List Char → List Char → List String
  | [], acc => if acc = [] then [] else [String.mk acc.reverse]
  | c :: rest, acc =>
      if c.isWhitespace then
        (if acc = [] then [] else [String.mk acc.reverse]) ++ splitWsAux rest []
      else splitWsAux rest (c :: acc)

/-- Python `text.strip().split()` (bot.py 182): split on whitespace runs and
drop empty tokens; the leading `strip()` is absorbed by no-argument `split`. -/
def pySplitWs (s : String) : List String :=
  splitWsAux s.data []

/-- Python `str.lower()` (ASCII case, as used on chain codes). -/
def pyToLower (s : String) : String :=
  String.mk (s.data.map Char.toLower)

/-- Python `str.upper()` (ASCII case, bot.py 213). -/
def pyToUpper (s : String) : String :=
  String.mk (s.data.map Char.toUpper)

/-- `SUPPORTED_CHAINS` (bot.py 29). -/
def SUPPORTED_CHAINS : List String :=
  ["eth", "bsc", "ftm", "avax", "cro", "arbi", "poly", "base", "sol", "sonic"]

/-- The token list of bot.py 182. -/
def parseInput (text : String) : List String :=
  pySplitWs text

/-- The validation test of bot.py 183, negated: exactly two tokens, and the
second token lower-cased is a supported chain code. -/
def inputAccepted (text : String) : Bool :=
  let toks := parseInput text
  toks.length = 2 && SUPPORTED_CHAINS.contains (pyToLower (toks.getD 1 ""))

/-- The lower-cased chain token (bot.py 191-192). -/
def chainOf (text : String) : String :=
  pyToLower ((parseInput text).getD 1 "")

/-- The usage rejection text (bot.py 184-188). -/
def usageMessage : String :=
  "❌ Invalid format. Use:\n`<address> <chain>`\n\nSupported chains: " ++
    String.intercalate ", " SUPPORTED_CHAINS

/-- The progress notice (bot.py 195). -/
def processingMessage : String :=
  "🔄 Processing request..."

/-- The holder-data-absence reply (bot.py 206). -/
def noMapMessage : String :=
  "❌ Map not computed or error occurred."

/-- The top-level catch-all reply (bot.py 255). -/
def genericErrorMessage : String :=
  "❌ Error processing request. Please try again later."

/-! ## Number formatting (Python format specs `:,.6f`, `:,.2f`, `:.2f`) -/

/-- Insert thousands separators into a reversed digit list; `k` counts digits
already emitted. -/
def groupRevAux : List Char → Nat → List Char
  | [], _ => []
  | c :: rest, k =>
      if k % 3 = 0 ∧ k ≠ 0 then ',' :: c :: groupRevAux rest (k + 1)
      else c :: groupRevAux rest (k + 1)

/-- Thousands grouping of a digit string. -/
def insertCommas (s : String) : String :=
  String.mk (groupRevAux s.data.reverse 0).reverse

/-- Fixed-point decimal rendering of a rational with optional thousands
grouping, modelling the Python format specs `:,.Nf` and `:.Nf` on a float
value. (The digit-level rounding mode is immaterial to every claim; half-up
is used here.) -/
def formatFixed (useCommas : Bool) (nd : Nat) (q : ℚ) : String :=
  let scaled : Nat := (⌊|q| * (10 : ℚ) ^ nd + 1 / 2⌋).toNat
  let s := toString scaled
  let s := if s.data.length ≤ nd then
      String.mk (List.replicate (nd + 1 - s.data.length) '0') ++ s
    else s
  let ip := String.mk (s.data.take (s.data.length - nd))
  let fp := String.mk (s.data.drop (s.data.length - nd))
  let ip := if useCommas then insertCommas ip else ip
  (if q < 0 then "-" else "") ++ ip ++ (if nd = 0 then "" else "." ++ fp)

/-! ## Response composition (bot.py 210-240) -/

/-- Formatting one optional numeric field with a numeric format spec
(bot.py 222-225). The four keys are always present in the dictionary
`get_market_data` builds, so the `'N/A'` default of the `.get` is never
taken; a `None` value reaches the format spec and Python raises `TypeError`,
modelled as `.error ()`. -/
def fmtField (fmt : ℚ → String) : Option ℚ → Except Unit String
  | none => .error ()
  | some q => .ok (fmt q)

/-- The market block (bot.py 218-226), line by line in source order; an
`.error` models the formatting `TypeError` escaping to the handler's
top-level `except`. -/
def marketLines (m : MarketData) : Except Unit (List String) := do
  let p ← fmtField (formatFixed true 6) m.price
  let c ← fmtField (formatFixed true 2) m.market_cap
  let v ← fmtField (formatFixed true 2) m.volume
  let ch ← fmtField (formatFixed false 2) m.price_change_24h
  pure ["",
        "💹 *Market Data:*",
        "• Price: $" ++ p,
        "• Market Cap: $" ++ c,
        "• Volume (24h): $" ++ v,
        "• Price Change (24h): " ++ ch ++ "%"]

/-- The header block (bot.py 210-216); `full_name` and `symbol` were already
defaulted inside `get_token_data`, and `dt_update` is read with an `'N/A'`
default here. -/
def headerLines (chain : String) (td : TokenData) : List String :=
  ["📊 *" ++ td.full_name ++ " (" ++ td.symbol ++ ")*",
   "",
   "• Network: " ++ pyToUpper chain,
   "• Address: `" ++ td.token_address ++ "`",
   "• Updated: " ++ td.dt_update.getD "N/A"]

/-- The top-holder and decentralization block (bot.py 228-240), built only
when the `nodes` list is present and non-empty; `holder` is its head. -/
def holderLines (holder : Node) (nodes : List Node) : List String :=
  let d := analyze_decentralization nodes
  ["",
   "🏆 *Top Holder:*",
   "• Address: `" ++ holder.address ++ "`",
   "• Percentage: " ++ formatFixed false 2 (nodePercentage holder) ++ "%",
   "",
   "🔍 *Decentralization Analysis:*",
   "• Score: " ++ toString d.score ++ "/5",
   "• Description: " ++ d.description]

/-- The `response` list assembly (bot.py 210-240): header, then the market
block when `market_data` is truthy, then the holder block when `nodes` is
present and non-empty. -/
def composeResponse (chain : String) (td : TokenData) (md : Option MarketData) :
    Except Unit (List String) := do
  let base := headerLines chain td
  let withMarket ← match md with
    | some m => do
        let ml ← marketLines m
        pure (base ++ ml)
    | none => pure base
  match td.nodes with
  | some (holder :: rest) => pure (withMarket ++ holderLines holder (holder :: rest))
  | _ => pure withMarket

/-! ## The handler as a trace function (bot.py 180-255) -/

/-- A reply emitted to the user: a plain text message or a photo with a
caption. -/
inductive Reply where
  | text (s : String)
  | photo (caption : String)
deriving DecidableEq

/-- The message body a reply carries. -/
def replyBody : Reply → String
  | .text s => s
  | .photo c => c

/-- The outcomes of the three concurrently gathered operations
(bot.py 199-203), plus whether the `reply_photo` send raises: the
environment of one request. Each fetcher catches its own exceptions and
resolves to `none`, so the gather itself never raises. -/
structure Env where
  token_data : Option TokenData
  market_data : Option MarketData
  screenshot_path : Option String
  sendPhotoFails : Bool
deriving DecidableEq

/-- The observable effects of one `handle_contract` run: the replies sent in
order, whether a photo was delivered, whether the valid-input branch ran the
three fetches, and whether `os.remove` ran on the screenshot file. -/
structure Trace where
  replies : List Reply
  photoSent : Bool
  fetchersCalled : Bool
  fileDeleted : Bool
deriving DecidableEq

/-- `handle_contract` (bot.py 180-255). Exit paths:
* invalid input: usage reply, no fetches (bot.py 183-189);
* holder data absent: progress notice then the no-map reply, `return`
  without touching the screenshot file (bot.py 205-207);
* composition exception (market-field formatting on a null value): caught
  at bot.py 253-255, generic failure reply, screenshot file untouched;
* screenshot present: the `try/finally` at bot.py 244-249 deletes the file
  whether or not `reply_photo` raises; a raise is then caught at
  bot.py 253-255 and answered with the generic failure reply;
* no screenshot: the composed text is sent alone, no file to delete. -/
def handle_contract (text : String) (env : Env) : Trace :=
  if inputAccepted text then
    match env.token_data with
    | none =>
        { replies := [.text processingMessage, .text noMapMessage],
          photoSent := false, fetchersCalled := true, fileDeleted := false }
    | some td =>
        match composeResponse (chainOf text) td env.market_data with
        | .error _ =>
            { replies := [.text processingMessage, .text genericErrorMessage],
              photoSent := false, fetchersCalled := true, fileDeleted := false }
        | .ok lines =>
            match env.screenshot_path with
            | some _ =>
                if env.sendPhotoFails then
                  { replies := [.text processingMessage, .text genericErrorMessage],
                    photoSent := false, fetchersCalled := true, fileDeleted := true }
                else
                  { replies := [.text processingMessage,
                                .photo (String.intercalate "\n" lines)],
                    photoSent := true, fetchersCalled := true, fileDeleted := true }
            | none =>
                { replies := [.text processingMessage,
                              .text (String.intercalate "\n" lines)],
                  photoSent := false, fetchersCalled := true, fileDeleted := false }
  else
    { replies := [.text usageMessage],
      photoSent := false, fetchersCalled := false, fileDeleted := false }

/-! ## Claims about the handler -/

/-- Strings whose first characters differ are different. -/
theorem str_ne_of_head_ne (s t : String) (h : s.data.head? ≠ t.data.head?) :
    s ≠ t :=
  fun he => h (by rw [he])

/-- The fixed market-block heading is not a header line: every header line
starts with a different character. -/
theorem market_heading_not_mem_header (chain : String) (td : TokenData) :
    "💹 *Market Data:*" ∉ headerLines chain td := by
  intro hmem
  simp only [headerLines, List.mem_cons, List.not_mem_nil, or_false] at hmem
  rcases hmem with h | h | h | h | h <;>
    · have := congrArg (fun s => s.data.head?) h
      simp [String.data_append] at this

/-- The fixed market-block heading is not a holder-block line either. -/
theorem market_heading_not_mem_holder (holder : Node) (nodes : List Node) :
    "💹 *Market Data:*" ∉ holderLines holder nodes := by
  intro hmem
  simp only [holderLines, List.mem_cons, List.not_mem_nil, or_false] at hmem
  rcases hmem with h | h | h | h | h | h | h | h <;>
    · have := congrArg (fun s => s.data.head?) h
      simp [String.data_append] at this

/-- Claim C3: whenever the holder-data fetch resolved to absence, the handler
sends the progress notice and then exactly the one no-map failure reply and
nothing else — no header, market or holder content, and no photo — even when
the market fetch and the screenshot both succeeded. -/
theorem claim_C3 (text : String) (env : Env)
    (hacc : inputAccepted text = true) (htd : env.token_data = none) :
    (handle_contract text env).replies =
      [.text processingMessage, .text noMapMessage] ∧
    (handle_contract text env).photoSent = false := by
  constructor <;> simp [handle_contract, hacc, htd]

/-- Claim C3 witness: holder data absent while market data and the screenshot
succeeded. -/
theorem claim_C3_witness :
    (handle_contract "0xabc eth"
        ⟨none, some ⟨some 1, some 2, some 3, some 4⟩,
         some "temp_0xabc.png", false⟩).replies =
      [.text processingMessage, .text noMapMessage] ∧
    (handle_contract "0xabc eth"
        ⟨none, some ⟨some 1, some 2, some 3, some 4⟩,
         some "temp_0xabc.png", false⟩).photoSent = false :=
  claim_C3 _ _ (by decide) rfl

/-- Claim C8: an input that does not split into exactly two whitespace-separated
tokens, or whose second token lower-cased is not a supported chain code, gets
the usage rejection reply and triggers none of the three fetches. -/
theorem claim_C8 (text : String) (env : Env)
    (h : inputAccepted text = false) :
    handle_contract text env =
      { replies := [.text usageMessage], photoSent := false,
        fetchersCalled := false, fileDeleted := false } := by
  simp [handle_contract, h]

/-- Claim C8 witness: one token, three tokens, and an unsupported chain code. -/
theorem claim_C8_witness :
    handle_contract "0xabc" ⟨none, none, none, false⟩ =
      { replies := [.text usageMessage], photoSent := false,
        fetchersCalled := false, fileDeleted := false } ∧
    handle_contract "a b c" ⟨none, none, none, false⟩ =
      { replies := [.text usageMessage], photoSent := false,
        fetchersCalled := false, fileDeleted := false } ∧
    handle_contract "0xabc doge" ⟨none, none, none, false⟩ =
      { replies := [.text usageMessage], photoSent := false,
        fetchersCalled := false, fileDeleted := false } :=
  ⟨claim_C8 _ _ (by decide), claim_C8 _ _ (by decide), claim_C8 _ _ (by decide)⟩

/-- Claim C1 counterexample: a request on which the screenshot file was created
(`screenshot_path` present) but the holder-data fetch resolved to absence:
the handler returns at bot.py 207 without ever reaching the `try/finally`
that deletes the file, so the file is not deleted. -/
theorem claim_C1_counterexample :
    (Env.mk none none (some "temp_0xabc.png") false).screenshot_path.isSome = true ∧
    (handle_contract "0xabc eth"
        (Env.mk none none (some "temp_0xabc.png") false)).fileDeleted = false :=
  ⟨rfl, rfl⟩

/-- Claim C1 as amended: the screenshot file is deleted on the send-step exit
paths — both when `reply_photo` succeeds and when it raises (the
`try/finally` at bot.py 244-249) — but not on the other exits: on the
holder-data-absence early return and on a composition exception (such as the
market-formatting `TypeError`), the handler finishes without deleting the
created file, which therefore leaks. -/
theorem claim_C1_amended_thm (text : String) (env : Env)
    (hacc : inputAccepted text = true)
    (hss : env.screenshot_path.isSome = true) :
    (∀ td lines, env.token_data = some td →
      composeResponse (chainOf text) td env.market_data = .ok lines →
      (handle_contract text env).fileDeleted = true) ∧
    (env.token_data = none → (handle_contract text env).fileDeleted = false) ∧
    (∀ td, env.token_data = some td →
      composeResponse (chainOf text) td env.market_data = .error () →
      (handle_contract text env).fileDeleted = false) := by
  obtain ⟨p, hp⟩ := Option.isSome_iff_exists.mp hss
  refine ⟨?_, ?_, ?_⟩
  · intro td lines htd hcomp
    cases hspf : env.sendPhotoFails <;>
      simp [handle_contract, hacc, htd, hcomp, hp, hspf]
  · intro htd
    simp [handle_contract, hacc, htd]
  · intro td htd hcomp
    simp [handle_contract, hacc, htd, hcomp]

/-- Claim C1 amended witness: with holder data present and a composable
message, the file is deleted whether or not the photo send fails; with holder
data absent, or with a null market field making composition raise, it is not. -/
theorem claim_C1_amended_witness :
    (handle_contract "0xabc eth"
        (Env.mk (some ⟨"0xabc", "N/A", "N/A", none, none⟩) none
          (some "temp_0xabc.png") true)).fileDeleted = true ∧
    (handle_contract "0xabc eth"
        (Env.mk (some ⟨"0xabc", "N/A", "N/A", none, none⟩) none
          (some "temp_0xabc.png") false)).fileDeleted = true ∧
    (handle_contract "0xabc eth"
        (Env.mk none none (some "temp_0xabc.png") false)).fileDeleted = false ∧
    (handle_contract "0xabc eth"
        (Env.mk (some ⟨"0xabc", "N/A", "N/A", none, none⟩)
          (some ⟨none, none, none, none⟩)
          (some "temp_0xabc.png") false)).fileDeleted = false :=
  ⟨(claim_C1_amended_thm "0xabc eth" _ (by decide) (by decide)).1 _ _ rfl rfl,
   (claim_C1_amended_thm "0xabc eth" _ (by decide) (by decide)).1 _ _ rfl rfl,
   (claim_C1_amended_thm "0xabc eth" _ (by decide) (by decide)).2.1 rfl,
   (claim_C1_amended_thm "0xabc eth" _ (by decide) (by decide)).2.2 _ rfl rfl⟩

/-- A market record with any null field makes the market-block formatting
raise. -/
theorem marketLines_error_of_null (m : MarketData)
    (h : m.price = none ∨ m.market_cap = none ∨ m.volume = none ∨
      m.price_change_24h = none) :
    marketLines m = .error () := by
  rcases m with ⟨p, c, v, ch⟩
  rcases h with h | h | h | h <;> subst h
  · rfl
  · cases p <;> rfl
  · cases p <;> cases c <;> rfl
  · cases p <;> cases c <;> cases v <;> rfl

/-- Composition with a present market record with any null field raises. -/
theorem composeResponse_error_of_null (chain : String) (td : TokenData)
    (m : MarketData)
    (h : m.price = none ∨ m.market_cap = none ∨ m.volume = none ∨
      m.price_change_24h = none) :
    composeResponse chain td (some m) = .error () := by
  have hml := marketLines_error_of_null m h
  simp only [composeResponse, hml]
  rfl

/-- Claim C9: a successful market fetch (HTTP 200, parseable body) returns a
present record even when every extracted field is null, because the returned
dictionary always carries its four keys; and when any of the four fields of a
present record is null, the composer's numeric formatting raises, so the
request degrades to the single generic failure reply (no photo) rather than
a message with the market block merely omitted. -/
theorem claim_C9 (text : String) (env : Env) (td : TokenData) (m : MarketData)
    (hacc : inputAccepted text = true)
    (htd : env.token_data = some td) (hmd : env.market_data = some m)
    (hnull : m.price = none ∨ m.market_cap = none ∨ m.volume = none ∨
      m.price_change_24h = none) :
    (∀ g : GeckoJson, get_market_data "eth" (.resp 200 (some g)) ≠ none) ∧
    get_market_data "eth" (.resp 200 (some ⟨none⟩)) =
      some ⟨none, none, none, none⟩ ∧
    composeResponse (chainOf text) td (some m) = .error () ∧
    (handle_contract text env).replies =
      [.text processingMessage, .text genericErrorMessage] ∧
    (handle_contract text env).photoSent = false := by
  have hcomp := composeResponse_error_of_null (chainOf text) td m hnull
  refine ⟨?_, rfl, hcomp, ?_, ?_⟩
  · intro g
    simp [get_market_data, chain_map]
  · simp [handle_contract, hacc, htd, hmd, hcomp]
  · simp [handle_contract, hacc, htd, hmd, hcomp]

/-- Claim C9 witness: an all-null market record with holder data present. -/
theorem claim_C9_witness :
    (∀ g : GeckoJson, get_market_data "eth" (.resp 200 (some g)) ≠ none) ∧
    get_market_data "eth" (.resp 200 (some ⟨none⟩)) =
      some ⟨none, none, none, none⟩ ∧
    composeResponse (chainOf "0xabc eth") ⟨"0xabc", "N/A", "N/A", none, none⟩
      (some ⟨none, none, none, none⟩) = .error () ∧
    (handle_contract "0xabc eth"
        (Env.mk (some ⟨"0xabc", "N/A", "N/A", none, none⟩)
          (some ⟨none, none, none, none⟩) none false)).replies =
      [.text processingMessage, .text genericErrorMessage] ∧
    (handle_contract "0xabc eth"
        (Env.mk (some ⟨"0xabc", "N/A", "N/A", none, none⟩)
          (some ⟨none, none, none, none⟩) none false)).photoSent = false :=
  claim_C9 "0xabc eth" _ _ _ (by decide) rfl rfl (Or.inl rfl)

/-- Claim C7: with holder data present and market data absent, composition
never raises, the composed message has no market block, it keeps the header
fields, and when the holder list is non-empty it keeps the top-holder and
decentralization blocks; when the photo send does not fail, the handler
delivers exactly that composed text (as a photo caption or a plain text
reply) after the progress notice. -/
theorem claim_C7 (text : String) (env : Env) (td : TokenData)
    (hacc : inputAccepted text = true)
    (htd : env.token_data = some td) (hmd : env.market_data = none) :
    ∃ lines, composeResponse (chainOf text) td none = .ok lines ∧
      "💹 *Market Data:*" ∉ lines ∧
      ("• Network: " ++ pyToUpper (chainOf text)) ∈ lines ∧
      ("• Address: `" ++ td.token_address ++ "`") ∈ lines ∧
      (∀ n ns, td.nodes = some (n :: ns) →
        "🏆 *Top Holder:*" ∈ lines ∧
        "🔍 *Decentralization Analysis:*" ∈ lines) ∧
      (env.sendPhotoFails = false →
        ∃ r, (handle_contract text env).replies = [.text processingMessage, r] ∧
          replyBody r = String.intercalate "\n" lines) := by
  have hsend : ∀ lines, composeResponse (chainOf text) td none = .ok lines →
      env.sendPhotoFails = false →
      ∃ r, (handle_contract text env).replies = [.text processingMessage, r] ∧
        replyBody r = String.intercalate "\n" lines := by
    intro lines hcomp hspf
    cases hss : env.screenshot_path with
    | some p =>
        exact ⟨.photo (String.intercalate "\n" lines),
          by simp [handle_contract, hacc, htd, hmd, hcomp, hss, hspf], rfl⟩
    | none =>
        exact ⟨.text (String.intercalate "\n" lines),
          by simp [handle_contract, hacc, htd, hmd, hcomp, hss], rfl⟩
  cases hnodes : td.nodes with
  | none =>
      refine ⟨headerLines (chainOf text) td, ?_, ?_, ?_, ?_, ?_, ?_⟩
      · simp only [composeResponse, hnodes]
        rfl
      · exact market_heading_not_mem_header _ _
      · simp [headerLines]
      · simp [headerLines]
      · intro n ns hn
        simp at hn
      · exact hsend _ (by simp only [composeResponse, hnodes]; rfl)
  | some ns =>
      cases ns with
      | nil =>
          refine ⟨headerLines (chainOf text) td, ?_, ?_, ?_, ?_, ?_, ?_⟩
          · simp only [composeResponse, hnodes]
            rfl
          · exact market_heading_not_mem_header _ _
          · simp [headerLines]
          · simp [headerLines]
          · intro n ns hn
            simp at hn
          · exact hsend _ (by simp only [composeResponse, hnodes]; rfl)
      | cons holder rest =>
          refine ⟨headerLines (chainOf text) td ++
            holderLines holder (holder :: rest), ?_, ?_, ?_, ?_, ?_, ?_⟩
          · simp only [composeResponse, hnodes]
            rfl
          · intro hmem
            rcases List.mem_append.mp hmem with h | h
            · exact market_heading_not_mem_header _ _ h
            · exact market_heading_not_mem_holder _ _ h
          · simp [headerLines]
          · simp [headerLines]
          · intro n ns hn
            constructor <;> simp [holderLines]
          · exact hsend _ (by simp only [composeResponse, hnodes]; rfl)

/-- Claim C7 witness: holder data present with three holders, market data
absent, no screenshot, photo send not failing. -/
theorem claim_C7_witness :
    ∃ lines, composeResponse (chainOf "0xabc eth")
        ⟨"0xabc", "TKN", "TokenName", some "2024-01-01",
          some [⟨"h1", some 40⟩, ⟨"h2", some 30⟩, ⟨"h3", some 20⟩]⟩ none =
          .ok lines ∧
      "💹 *Market Data:*" ∉ lines ∧
      ("• Network: " ++ pyToUpper (chainOf "0xabc eth")) ∈ lines ∧
      ("• Address: `" ++ "0xabc" ++ "`") ∈ lines ∧
      (∀ n ns, (some [⟨"h1", some 40⟩, ⟨"h2", some 30⟩, ⟨"h3", some 20⟩] :
          Option (List Node)) = some (n :: ns) →
        "🏆 *Top Holder:*" ∈ lines ∧
        "🔍 *Decentralization Analysis:*" ∈ lines) ∧
      (false = false →
        ∃ r, (handle_contract "0xabc eth"
            ⟨some ⟨"0xabc", "TKN", "TokenName", some "2024-01-01",
              some [⟨"h1", some 40⟩, ⟨"h2", some 30⟩, ⟨"h3", some 20⟩]⟩,
             none, none, false⟩).replies = [.text processingMessage, r] ∧
          replyBody r = String.intercalate "\n" lines) :=
  claim_C7 "0xabc eth"
    ⟨some ⟨"0xabc", "TKN", "TokenName", some "2024-01-01",
      some [⟨"h1", some 40⟩, ⟨"h2", some 30⟩, ⟨"h3", some 20⟩]⟩,
     none, none, false⟩
    ⟨"0xabc", "TKN", "TokenName", some "2024-01-01",
      some [⟨"h1", some 40⟩, ⟨"h2", some 30⟩, ⟨"h3", some 20⟩]⟩
    (by decide) rfl rfl
